import Mathlib

/-!
Shallow embedding of the core-transaction library (src/lib/core-transaction.js)
for verification of its natural-language specification.

The embedding follows the structure of the source file:
  * the coordinator layer: defineTransaction, createTransaction, startTransaction,
    reUseOrCreateTransaction and the option composition done by startInner;
  * the transaction state machine: the execute promise chain with its
    processBegin, processExecution, processCommit and processRollback steps;
  * the commit-stack bubbling performed by the local onCommit function inside
    processCommit, specialised to chains of nested transactions;
  * the status field and the bookkeeping on the innerTransactions list of
    the parent transaction.

All definitions are computable and decidable so that concrete scenarios can be
evaluated by the kernel.
-/

namespace CoreTransaction

/-- Status field of a transaction (source line 59 initialises it to running,
line 93 sets rolledback, line 157 sets committed). -/
inductive Status where
  | running
  | committed
  | rolledback
deriving DecidableEq

/-- Errors surfaced through the execute promise chain.  The source throws the
string TRANSACTION_EXECUTION_NOT_RETURNING_A_PROMISE (line 128), Error objects
INNER_TRANSACTION_NOT_AWAITED (lines 139 and 144), INNER_TRANSACTION_ROLLED_BACK
(line 148) and ROLL_BACK (line 94); user code and implementation hooks raise
arbitrary errors, modelled with a numeric label. -/
inductive TxErr where
  | notAPromise
  | innerNotAwaited
  | innerRolledBack
  | rollBack
  | user (n : Nat)
  | hookFail (n : Nat)
deriving DecidableEq

/-- Errors thrown by the coordinator layer: the Error objects of lines 287,
291 and 302, and the JavaScript ReferenceError raised by reading an undeclared
identifier under strict mode. -/
inductive DefineErr where
  | parentNotProvided
  | parentMayNotBeProvided
  | requirementUnknown
  | referenceError (name : String)
deriving DecidableEq

/-- Implementation classes are opaque labels: baseNoop stands for the
library DefaultTransactionImplementationClass (lines 248-261), custom n for a
caller-supplied class. -/
inductive ImplClass where
  | baseNoop
  | custom (n : Nat)
deriving DecidableEq

/-- Options object recognised by the coordinator (lines 274-280 and 305,
310-312).  A missing key is none; JavaScript classes and functions are truthy,
so the falsiness tests of line 311 correspond to isSome tests.  Callbacks are
identified by a numeric label. -/
structure Options where
  implementationClass : Option ImplClass
  DefaultImplementationClass : Option ImplClass
  onCommit : Option Nat
  onRollback : Option Nat
deriving DecidableEq

/-- Options object with every key absent. -/
def Options.empty : Options :=
  { implementationClass := none, DefaultImplementationClass := none,
    onCommit := none, onRollback := none }

/-- Registry entry: the slice of a live Transaction that the coordinator layer
reads back (id and nesting level, lines 218 and 231). -/
structure TxMeta where
  id : Nat
  level : Nat
deriving DecidableEq

/-- Registry: the module level transactions map of line 10, keyed by id.
A deleted or never-inserted entry reads as none (undefined). -/
def Registry : Type := Nat → Option TxMeta

/-- Second argument of defineTransaction.  undef covers an absent, undefined
or otherwise falsy value; nonHandler is a truthy value that is not a
TransactionHandler instance; handler is a genuine TransactionHandler carrying
the id of the transaction it was built for (line 14). -/
inductive ParentArg where
  | undef
  | nonHandler
  | handler (id : Nat)
deriving DecidableEq

/-- Result of createTransaction as far as the claims are concerned: the parent
linkage and level set by constructInnerTransaction (lines 217-218) or
constructMainTransaction (line 231), the implementation class chosen on line
311, and whether the constructor selected the inner hook set (lines 64-80). -/
structure Created where
  parentId : Option Nat
  level : Nat
  impl : ImplClass
  usesInnerHooks : Bool
deriving DecidableEq

/-- Implementation class resolution of line 311:
innerOptions.implementationClass || innerOptions.DefaultImplementationClass ||
DefaultTransactionImplementationClass, with libDefault the current value of the
module level DefaultTransactionImplementationClass variable (mutable through
setTransactionImplementationClass, line 332). -/
def chooseImpl (libDefault : ImplClass) (opts : Options) : ImplClass :=
  ((opts.implementationClass).orElse (fun _ => opts.DefaultImplementationClass)).getD libDefault

/-- createTransaction (lines 310-318): instantiates the chosen implementation
class with the resolved parent transaction; the Transaction constructor then
dispatches on the presence of a parent (lines 64-80), setting level to
parent.level + 1 for an inner transaction (line 218) and 0 for a root
(line 231). -/
def createTransaction (libDefault : ImplClass) (parent : Option TxMeta)
    (innerOptions : Options) : Created :=
  { parentId := parent.map TxMeta.id,
    level := match parent with
      | some p => p.level + 1
      | none => 0,
    impl := chooseImpl libDefault innerOptions,
    usesInnerHooks := parent.isSome }

/-- Option composition of line 305: assign of a fresh object carrying the
current default implementation class with the caller options, whose own keys
take precedence. -/
def withLibDefault (libDefault : ImplClass) (opts : Options) : Options :=
  { opts with DefaultImplementationClass :=
      (opts.DefaultImplementationClass).orElse (fun _ => some libDefault) }

/-- defineTransaction (lines 281-307).  The local variable parentTransaction is
assigned only in the REUSE branch (line 288); the REUSE_OR_NEW branch merely
normalises the handler argument (lines 297-300) and leaves parentTransaction
undefined, so createTransaction receives no parent there.  The NEW branch
rejects a genuine TransactionHandler (line 291) and nulls anything else
(line 295). -/
def defineTransaction (libDefault : ImplClass) (reg : Registry) (requirement : String)
    (arg : ParentArg) (opts : Options) : Except DefineErr Created :=
  if requirement = "REUSE" then
    match arg with
    | ParentArg.handler hid =>
        Except.ok (createTransaction libDefault (reg hid) (withLibDefault libDefault opts))
    | _ => Except.error DefineErr.parentNotProvided
  else if requirement = "NEW" then
    match arg with
    | ParentArg.handler _ => Except.error DefineErr.parentMayNotBeProvided
    | _ => Except.ok (createTransaction libDefault none (withLibDefault libDefault opts))
  else if requirement = "REUSE_OR_NEW" then
    Except.ok (createTransaction libDefault none (withLibDefault libDefault opts))
  else
    Except.error DefineErr.requirementUnknown

/-- startTransaction (lines 320-322): defineTransaction called with NEW and the
options in the handler position; the arity-2 adjustment of lines 292-294 moves
them back into the options position, and an options object is not a
TransactionHandler instance, so no error is raised. -/
def startTransaction (libDefault : ImplClass) (reg : Registry)
    (opts : Options) : Except DefineErr Created :=
  defineTransaction libDefault reg "NEW" ParentArg.undef opts

/-- reUseOrCreateTransaction (lines 324-326).  The source function declares no
parameters and its body reads the undeclared identifiers parentTransaction and
options; under the strict mode of line 1 this throws
ReferenceError: parentTransaction is not defined before defineTransaction can
be invoked, whatever arguments the caller passed. -/
def reUseOrCreateTransaction (_parentHandle : ParentArg) (_opts : Options) :
    Except DefineErr Created :=
  Except.error (DefineErr.referenceError "parentTransaction")

/-- Option composition performed by startInner (line 88): assign of a fresh
object carrying only the DefaultImplementationClass of the parent options with
the caller innerOptions, whose own keys take precedence.  In particular the
implementationClass of the parent options is never copied. -/
def startInnerOptions (parentOpts innerOptions : Options) : Options :=
  { innerOptions with DefaultImplementationClass :=
      (innerOptions.DefaultImplementationClass).orElse (fun _ => parentOpts.DefaultImplementationClass) }

/-- startInner (lines 87-89): createTransaction with this transaction as parent
and the composed options. -/
def startInner (libDefault : ImplClass) (parentMeta : TxMeta)
    (parentOpts innerOptions : Options) : Created :=
  createTransaction libDefault (some parentMeta) (startInnerOptions parentOpts innerOptions)

/-! ## The execute state machine -/

/-- Entry of the innerTransactions list of a transaction (line 57, pushed on
line 225).  The list holds references to the child Transaction objects, so an
entry exposes the current status of that child. -/
structure Inner where
  id : Nat
  status : Status
deriving DecidableEq

/-- Parent test of line 142: parentTransaction && parentTransaction.status
is not running. -/
def parentFinished : Option Status → Bool
  | some p => decide (p ≠ Status.running)
  | none => false

/-- Commit pre-checks of processCommit (lines 137-149), evaluated in source
order; the first failing check determines the thrown error. -/
def commitPrecheck (inners : List Inner) (parentStatus : Option Status) : Option TxErr :=
  if inners.any fun t => t.status == Status.running then some TxErr.innerNotAwaited
  else if parentFinished parentStatus then some TxErr.innerNotAwaited
  else if inners.any fun t => t.status == Status.rolledback then some TxErr.innerRolledBack
  else none

/-- Outcome of an implementation hook call (impl.processCommit on line 152,
impl.processRollback on line 194): it may return normally (a resolved value or
a fulfilled future), return a future that rejects, or throw synchronously. -/
inductive HookRes where
  | ok
  | rejectedFuture (e : TxErr)
  | syncThrow (e : TxErr)
deriving DecidableEq

deriving instance DecidableEq for Except

/-- Settled shape of the value returned by the user processFn (line 126):
either not future-like, failing the test of line 127, or a future with a
settled outcome. -/
inductive ExecRes where
  | nonThenable
  | future (outcome : Except TxErr Unit)
deriving DecidableEq

/-- Callback options of one transaction together with the behaviour of the
callbacks themselves: onCommitCbFails (onRollbackCbFails) records whether the
user callback, when invoked, throws or rejects, exercising the try/catch
logging of lines 176-186 and 203-210. -/
structure CbOpts where
  onCommit : Option Nat
  onRollback : Option Nat
  onCommitCbFails : Bool
  onRollbackCbFails : Bool
deriving DecidableEq

/-- Observable outcome of one execute run (lines 98-213) together with the
registry cleanup attached by createTransaction (lines 314-317).
onCommitStepRan records whether the deferred-callback step (the local onCommit
function, reached through the then of line 153) executed; onRollbackRan whether
the onRollback user callback was invoked (line 204); removedFromParent whether
line 160 removed this transaction from the parent innerTransactions list;
irrecoverableLogged whether an irrecoverable failure message was logged
(lines 181, 184, 206, 209). -/
structure ExecOutput where
  status : Status
  result : Except TxErr Unit
  onCommitStepRan : Bool
  onRollbackRan : Bool
  removedFromParent : Bool
  registryDeleted : Bool
  irrecoverableLogged : Bool
deriving DecidableEq

/-- processRollback (lines 191-212) invoked with error e while the transaction
status is statusIn.  A synchronous throw from impl.processRollback on line 194
escapes before the rollback call of line 196, so the status transition is
skipped and the promise rejects with the hook error.  When the hook returns, the
rollback call of line 196 sets the status and rethrows e; the then of line 195
runs the onRollback callback only if the hook future fulfils, and failures of
that callback are caught and logged (lines 203-210). -/
def processRollbackModel (statusIn : Status) (e : TxErr) (rollbackHook : HookRes)
    (opts : CbOpts) : ExecOutput :=
  match rollbackHook with
  | HookRes.syncThrow e2 =>
      { status := statusIn, result := Except.error e2,
        onCommitStepRan := false, onRollbackRan := false,
        removedFromParent := false, registryDeleted := true,
        irrecoverableLogged := false }
  | HookRes.ok =>
      { status := Status.rolledback, result := Except.error e,
        onCommitStepRan := false, onRollbackRan := opts.onRollback.isSome,
        removedFromParent := false, registryDeleted := true,
        irrecoverableLogged := opts.onRollback.isSome && opts.onRollbackCbFails }
  | HookRes.rejectedFuture _ =>
      { status := Status.rolledback, result := Except.error e,
        onCommitStepRan := false, onRollbackRan := false,
        removedFromParent := false, registryDeleted := true,
        irrecoverableLogged := false }

/-- One full run of the execute promise chain of lines 103-107:
processBegin, then processExecution, then processCommit, then the catch routing
any rejection through processRollback.  statusIn is the status at the time the
user future settles (running unless user code already called rollback and
swallowed the exception); inners and parentStatus are the innerTransactions
entries and the parent status observed by the pre-checks of lines 137-149.
On the commit path, a synchronous throw from impl.processCommit (line 152)
escapes before the status assignment of line 157 and is routed to
processRollback; a rejecting future from the hook skips the then of line 153,
so the deferred-callback step never runs and nothing is logged, while the
status assignment (line 157) and the parent-list removal (line 160) still
execute.  The irrecoverable logging on the commit path happens only when the
onCommit step runs the user callback now, that is at a root transaction with an
onCommit option whose callback fails. -/
def execute (statusIn : Status) (beginRes : Except TxErr Unit) (execRes : ExecRes)
    (inners : List Inner) (parentStatus : Option Status)
    (commitHook rollbackHook : HookRes) (opts : CbOpts) : ExecOutput :=
  match beginRes with
  | Except.error e => processRollbackModel statusIn e rollbackHook opts
  | Except.ok _ =>
    match execRes with
    | ExecRes.nonThenable =>
        processRollbackModel statusIn TxErr.notAPromise rollbackHook opts
    | ExecRes.future (Except.error e) =>
        processRollbackModel statusIn e rollbackHook opts
    | ExecRes.future (Except.ok _) =>
      match commitPrecheck inners parentStatus with
      | some e => processRollbackModel statusIn e rollbackHook opts
      | none =>
        match commitHook with
        | HookRes.syncThrow e => processRollbackModel statusIn e rollbackHook opts
        | HookRes.ok =>
            { status := Status.committed, result := Except.ok (),
              onCommitStepRan := true, onRollbackRan := false,
              removedFromParent := parentStatus.isSome, registryDeleted := true,
              irrecoverableLogged :=
                parentStatus.isNone && opts.onCommit.isSome && opts.onCommitCbFails }
        | HookRes.rejectedFuture _ =>
            { status := Status.committed, result := Except.ok (),
              onCommitStepRan := false, onRollbackRan := false,
              removedFromParent := parentStatus.isSome, registryDeleted := true,
              irrecoverableLogged := false }

/-- Status assignments reachable on a live transaction: the unconditional
assignment of line 157 inside processCommit and the unconditional assignment of
line 93 inside rollback, which the Handler exposes to user code (line 15). -/
inductive TxOp where
  | commitAssign
  | rollbackCall
deriving DecidableEq

/-- Effect of one status assignment: both writes are unguarded in the source
(lines 93 and 157), so neither inspects the current status. -/
def applyOp (_ : Status) : TxOp → Status
  | TxOp.commitAssign => Status.committed
  | TxOp.rollbackCall => Status.rolledback

/-- Status after a sequence of assignments. -/
def runOps (s : Status) (ops : List TxOp) : Status :=
  ops.foldl applyOp s

/-- Error raised by rollback (line 94): the supplied error, or ROLL_BACK when
called without one. -/
def rollbackError (e : Option TxErr) : TxErr :=
  e.getD TxErr.rollBack

/-- Parent innerTransactions bookkeeping once a child settles.  A child that
commits removes itself from the parent list (lines 159-160); a child that rolls
back leaves its entry in place, and since the entry is a reference to the child
object, the entry now shows the rolledback status written on line 93. -/
def innerAfterChildSettles (inners : List Inner) (cid : Nat) (final : Status) : List Inner :=
  if final = Status.committed then
    inners.filter fun i => i.id ≠ cid
  else
    inners.map fun i => if i.id = cid then { id := i.id, status := final } else i

/-! ## Commit-stack bubbling on a chain of nested transactions

The local onCommit function of processCommit (lines 164-187) runs after the
commit hook future fulfils.  It returns immediately when this transaction has
no onCommit option (line 165); otherwise, for an inner transaction it appends
the accumulated innerCommitStack of this transaction followed by its own
callback to the parent innerCommitStack (lines 169-170), and for a root
transaction it invokes every entry of its own innerCommitStack in order and
then its own callback (lines 172-173).  Because a child finishes its whole
commit bookkeeping before the parent future settles, a chain in which every
member commits is evaluated bottom-up.  A chain is listed root first; each
entry is the onCommit option of that transaction (a callback label or none). -/

/-- Contribution a committing transaction pushes onto the innerCommitStack of
its parent: nothing when it has no onCommit option (early return of line 165,
which discards the callbacks accumulated from its own descendants), otherwise
its accumulated stack followed by its own callback (lines 169-170).  The
accumulated stack of a chain member is exactly the contribution of the chain
below it. -/
def commitContribution : List (Option Nat) → List Nat
  | [] => []
  | none :: _ => []
  | some cb :: rest => commitContribution rest ++ [cb]

/-- Callbacks invoked when the root of a fully committing chain commits: the
root onCommit step fires its accumulated stack in order and then its own
callback (lines 172-173), or nothing at all when the root has no onCommit
option (line 165). -/
def firedAtRoot (chain : List (Option Nat)) : List Nat :=
  commitContribution chain

/-! ## Helper lemmas -/

/-- Unfolding of the running-child test of line 137. -/
theorem anyRunning_iff (inners : List Inner) :
    (inners.any fun t => t.status == Status.running) = true ↔
      ∃ i ∈ inners, i.status = Status.running := by
  simp [List.any_eq_true]

/-- Unfolding of the rolled-back-child test of line 147. -/
theorem anyRolled_iff (inners : List Inner) :
    (inners.any fun t => t.status == Status.rolledback) = true ↔
      ∃ i ∈ inners, i.status = Status.rolledback := by
  simp [List.any_eq_true]

/-- Unfolding of the parent test of line 142. -/
theorem parentFinished_iff (p : Option Status) :
    parentFinished p = true ↔ ∃ ps, p = some ps ∧ ps ≠ Status.running := by
  cases p <;> simp [parentFinished]

/-- The pre-checks fail with INNER_TRANSACTION_NOT_AWAITED exactly when a child
is still running or the parent is no longer running. -/
theorem commitPrecheck_notAwaited_iff (inners : List Inner) (p : Option Status) :
    commitPrecheck inners p = some TxErr.innerNotAwaited ↔
      ((∃ i ∈ inners, i.status = Status.running) ∨
        (∃ ps, p = some ps ∧ ps ≠ Status.running)) := by
  by_cases ha : (inners.any fun t => t.status == Status.running) = true
  · simp [commitPrecheck, ha, (anyRunning_iff inners).mp ha]
  · by_cases hb : parentFinished p = true
    · simp [commitPrecheck, ha, hb]
      exact Or.inr ((parentFinished_iff p).mp hb)
    · by_cases hc : (inners.any fun t => t.status == Status.rolledback) = true
      · simp only [commitPrecheck, ha, hb, hc, if_false, if_true, Bool.false_eq_true]
        constructor
        · intro h; cases h
        · intro h
          rcases h with h | h
          · exact absurd ((anyRunning_iff inners).mpr h) ha
          · exact absurd ((parentFinished_iff p).mpr h) hb
      · simp only [commitPrecheck, ha, hb, hc, if_false, Bool.false_eq_true]
        constructor
        · intro h; cases h
        · intro h
          rcases h with h | h
          · exact absurd ((anyRunning_iff inners).mpr h) ha
          · exact absurd ((parentFinished_iff p).mpr h) hb

/-- The pre-checks fail with INNER_TRANSACTION_ROLLED_BACK exactly when no child
is running, the parent (if any) is still running, and some child rolled back. -/
theorem commitPrecheck_rolledBack_iff (inners : List Inner) (p : Option Status) :
    commitPrecheck inners p = some TxErr.innerRolledBack ↔
      ((∀ i ∈ inners, i.status ≠ Status.running) ∧
        (∀ ps, p = some ps → ps = Status.running) ∧
        (∃ i ∈ inners, i.status = Status.rolledback)) := by
  by_cases ha : (inners.any fun t => t.status == Status.running) = true
  · simp only [commitPrecheck, ha, if_true]
    constructor
    · intro h; cases h
    · intro h
      rcases (anyRunning_iff inners).mp ha with ⟨i, hi, hrun⟩
      exact absurd hrun (h.1 i hi)
  · by_cases hb : parentFinished p = true
    · simp only [commitPrecheck, ha, hb, if_true, if_false, Bool.false_eq_true]
      constructor
      · intro h; cases h
      · intro h
        rcases (parentFinished_iff p).mp hb with ⟨ps, hps, hne⟩
        exact absurd (h.2.1 ps hps) hne
    · by_cases hc : (inners.any fun t => t.status == Status.rolledback) = true
      · simp only [commitPrecheck, ha, hb, hc, if_true, if_false, Bool.false_eq_true]
        refine ⟨fun _ => ⟨?_, ?_, (anyRolled_iff inners).mp hc⟩, fun _ => trivial⟩
        · intro i hi hrun
          exact ha ((anyRunning_iff inners).mpr ⟨i, hi, hrun⟩)
        · intro ps hps
          by_contra hne
          exact hb ((parentFinished_iff p).mpr ⟨ps, hps, hne⟩)
      · simp only [commitPrecheck, ha, hb, hc, if_false, Bool.false_eq_true]
        constructor
        · intro h; cases h
        · intro h
          exact absurd ((anyRolled_iff inners).mpr h.2.2) hc

/-- Any pre-check failure is routed through the catch of line 107 into
processRollback: with a returning rollback hook the transaction ends rolledback
and the caller sees the pre-check error. -/
theorem execute_precheck_fail (inners : List Inner) (p : Option Status) (e : TxErr)
    (h : commitPrecheck inners p = some e) (statusIn : Status) (ch : HookRes)
    (opts : CbOpts) :
    (execute statusIn (Except.ok ()) (ExecRes.future (Except.ok ())) inners p ch
        HookRes.ok opts).status = Status.rolledback ∧
      (execute statusIn (Except.ok ()) (ExecRes.future (Except.ok ())) inners p ch
        HookRes.ok opts).result = Except.error e := by
  simp [execute, h, processRollbackModel]

/-! ## Claims -/

/-- C1: the claim states that reUseOrCreateTransaction(parentHandle, options)
behaves exactly like defineTransaction with requirement REUSE_OR_NEW.  The code
is a slip: the function declares no parameters and reads the undeclared
identifiers parentTransaction and options, so every call throws a
ReferenceError before reaching defineTransaction; moreover even a direct
defineTransaction call with REUSE_OR_NEW never resolves a parent (the local
parentTransaction variable is assigned only in the REUSE branch) and therefore
always creates a root transaction. -/
theorem claim1_reUseOrCreateTransaction_is_broken :
    (∀ (arg : ParentArg) (opts : Options),
        reUseOrCreateTransaction arg opts
          = Except.error (DefineErr.referenceError "parentTransaction"))
    ∧ (∀ (lib : ImplClass) (reg : Registry) (arg : ParentArg) (opts : Options),
        defineTransaction lib reg "REUSE_OR_NEW" arg opts
          = Except.ok (createTransaction lib none (withLibDefault lib opts))) :=
  ⟨fun _ _ => rfl, fun _ _ _ _ => rfl⟩

/-- C8: defineTransaction requirement policies.  Under NEW a genuine
TransactionHandler argument is rejected with PARENT_TRANSACTION_MAY_NOT_BE_PROVIDED
and anything else yields a root transaction; under REUSE an absent or non-handler
argument is rejected with PARENT_TRANSACTION_NOT_PROVIDED; any requirement other
than NEW, REUSE and REUSE_OR_NEW is rejected with TRANSACTION_REQUIREMENT_UNKNOWN. -/
theorem claim8_defineTransaction_requirement_policies
    (lib : ImplClass) (reg : Registry) (opts : Options) :
    (∀ hid : Nat, defineTransaction lib reg "NEW" (ParentArg.handler hid) opts
        = Except.error DefineErr.parentMayNotBeProvided)
    ∧ (defineTransaction lib reg "NEW" ParentArg.undef opts
        = Except.ok (createTransaction lib none (withLibDefault lib opts)))
    ∧ (defineTransaction lib reg "NEW" ParentArg.nonHandler opts
        = Except.ok (createTransaction lib none (withLibDefault lib opts)))
    ∧ ((createTransaction lib none (withLibDefault lib opts)).parentId = none
        ∧ (createTransaction lib none (withLibDefault lib opts)).level = 0)
    ∧ (defineTransaction lib reg "REUSE" ParentArg.undef opts
        = Except.error DefineErr.parentNotProvided)
    ∧ (defineTransaction lib reg "REUSE" ParentArg.nonHandler opts
        = Except.error DefineErr.parentNotProvided)
    ∧ (∀ (requirement : String) (arg : ParentArg),
        requirement ≠ "NEW" → requirement ≠ "REUSE" → requirement ≠ "REUSE_OR_NEW" →
        defineTransaction lib reg requirement arg opts
          = Except.error DefineErr.requirementUnknown) := by
  refine ⟨fun _ => rfl, rfl, rfl, ⟨rfl, rfl⟩, rfl, rfl, ?_⟩
  intro requirement arg h1 h2 h3
  simp [defineTransaction, h1, h2, h3]

/-- Witness for C8 at concrete inputs. -/
theorem claim8_witness :
    defineTransaction ImplClass.baseNoop (fun _ => none) "FOO" ParentArg.undef Options.empty
      = Except.error DefineErr.requirementUnknown :=
  (claim8_defineTransaction_requirement_policies ImplClass.baseNoop (fun _ => none)
      Options.empty).2.2.2.2.2.2 "FOO" ParentArg.undef
    (by decide) (by decide) (by decide)

/-- C9: defineTransaction with REUSE and a genuine handler whose registry entry
was already deleted raises no error; the registry lookup yields none and a fresh
root transaction (level 0, no parent, main hook set) is silently returned. -/
theorem claim9_reuse_with_stale_handle_creates_root
    (lib : ImplClass) (reg : Registry) (hid : Nat) (opts : Options)
    (hgone : reg hid = none) :
    defineTransaction lib reg "REUSE" (ParentArg.handler hid) opts
      = Except.ok (createTransaction lib none (withLibDefault lib opts))
    ∧ (createTransaction lib none (withLibDefault lib opts)).parentId = none
    ∧ (createTransaction lib none (withLibDefault lib opts)).level = 0
    ∧ (createTransaction lib none (withLibDefault lib opts)).usesInnerHooks = false := by
  refine ⟨?_, rfl, rfl, rfl⟩
  simp [defineTransaction, hgone]

/-- Witness for C9 at a concrete empty registry. -/
theorem claim9_witness :
    defineTransaction ImplClass.baseNoop (fun _ => none) "REUSE" (ParentArg.handler 7)
        Options.empty
      = Except.ok (createTransaction ImplClass.baseNoop none
          (withLibDefault ImplClass.baseNoop Options.empty)) :=
  (claim9_reuse_with_stale_handle_creates_root ImplClass.baseNoop (fun _ => none) 7
      Options.empty rfl).1

/-- C10: an inner transaction started through startInner without its own
implementationClass is instantiated from the DefaultImplementationClass carried
in the parent options (or the library default), never from the parent
implementationClass override, and only DefaultImplementationClass is propagated
from the parent options into the inner options. -/
theorem claim10_startInner_ignores_parent_implementationClass
    (lib : ImplClass) (pmeta : TxMeta) (pOpts iOpts : Options)
    (h1 : iOpts.implementationClass = none)
    (h2 : iOpts.DefaultImplementationClass = none) :
    (startInner lib pmeta pOpts iOpts).impl = pOpts.DefaultImplementationClass.getD lib
    ∧ (startInnerOptions pOpts iOpts).implementationClass = iOpts.implementationClass
    ∧ (startInnerOptions pOpts iOpts).DefaultImplementationClass
        = pOpts.DefaultImplementationClass
    ∧ (∀ X : ImplClass,
        (startInner lib pmeta { pOpts with implementationClass := some X } iOpts).impl
          = (startInner lib pmeta pOpts iOpts).impl) := by
  refine ⟨?_, rfl, ?_, ?_⟩
  · simp [startInner, createTransaction, chooseImpl, startInnerOptions, h1, h2, Option.orElse]
  · simp [startInnerOptions, h2, Option.orElse]
  · intro X
    simp [startInner, createTransaction, chooseImpl, startInnerOptions, h1, h2, Option.orElse]

/-- Witness for C10: the parent was created with an implementationClass
override custom 1 and a DefaultImplementationClass custom 2; the inner
transaction is instantiated from custom 2. -/
theorem claim10_witness :
    (startInner ImplClass.baseNoop { id := 1, level := 0 }
        { implementationClass := some (ImplClass.custom 1),
          DefaultImplementationClass := some (ImplClass.custom 2),
          onCommit := none, onRollback := none }
        Options.empty).impl = ImplClass.custom 2 :=
  (claim10_startInner_ignores_parent_implementationClass ImplClass.baseNoop
      { id := 1, level := 0 }
      { implementationClass := some (ImplClass.custom 1),
        DefaultImplementationClass := some (ImplClass.custom 2),
        onCommit := none, onRollback := none }
      Options.empty rfl rfl).1

/-- C7: when the user processFn returns a value that is not future-like,
execute rejects with TRANSACTION_EXECUTION_NOT_RETURNING_A_PROMISE and the
transaction goes through the rollback path, ending rolledback. -/
theorem claim7_non_thenable_execution_rejects
    (statusIn : Status) (inners : List Inner) (parentStatus : Option Status)
    (commitHook : HookRes) (opts : CbOpts) :
    (execute statusIn (Except.ok ()) ExecRes.nonThenable inners parentStatus commitHook
        HookRes.ok opts).result = Except.error TxErr.notAPromise
    ∧ (execute statusIn (Except.ok ()) ExecRes.nonThenable inners parentStatus commitHook
        HookRes.ok opts).status = Status.rolledback :=
  ⟨rfl, rfl⟩

/-- C6: the commit pre-checks are evaluated in source order and the first
failing one determines the error: a running child or a finished parent yields
INNER_TRANSACTION_NOT_AWAITED, and only otherwise does a rolled-back child
yield INNER_TRANSACTION_ROLLED_BACK; any pre-check failure routes the
transaction through the rollback path. -/
theorem claim6_commit_prechecks_in_order (inners : List Inner) (p : Option Status) :
    (commitPrecheck inners p = some TxErr.innerNotAwaited ↔
      ((∃ i ∈ inners, i.status = Status.running) ∨
        (∃ ps, p = some ps ∧ ps ≠ Status.running)))
    ∧ (commitPrecheck inners p = some TxErr.innerRolledBack ↔
      ((∀ i ∈ inners, i.status ≠ Status.running) ∧
        (∀ ps, p = some ps → ps = Status.running) ∧
        (∃ i ∈ inners, i.status = Status.rolledback)))
    ∧ (∀ e, commitPrecheck inners p = some e →
        ∀ (statusIn : Status) (ch : HookRes) (opts : CbOpts),
          (execute statusIn (Except.ok ()) (ExecRes.future (Except.ok ())) inners p ch
              HookRes.ok opts).status = Status.rolledback
          ∧ (execute statusIn (Except.ok ()) (ExecRes.future (Except.ok ())) inners p ch
              HookRes.ok opts).result = Except.error e) := by
  refine ⟨commitPrecheck_notAwaited_iff inners p, commitPrecheck_rolledBack_iff inners p, ?_⟩
  intro e h statusIn ch opts
  exact execute_precheck_fail inners p e h statusIn ch opts

/-- Witness for C6: with both a running and a rolled-back child, the first
pre-check wins and the error is INNER_TRANSACTION_NOT_AWAITED. -/
theorem claim6_witness :
    (execute Status.running (Except.ok ()) (ExecRes.future (Except.ok ()))
        [{ id := 1, status := Status.running }, { id := 2, status := Status.rolledback }]
        none HookRes.ok HookRes.ok
        { onCommit := none, onRollback := none,
          onCommitCbFails := false, onRollbackCbFails := false }).result
      = Except.error TxErr.innerNotAwaited :=
  ((claim6_commit_prechecks_in_order
      [{ id := 1, status := Status.running }, { id := 2, status := Status.rolledback }]
      none).2.2 TxErr.innerNotAwaited rfl Status.running HookRes.ok
      { onCommit := none, onRollback := none,
        onCommitCbFails := false, onRollbackCbFails := false }).2

/-- C5: a rolled-back direct child that is still in the innerTransactions list
forces the parent commit attempt to fail with INNER_TRANSACTION_ROLLED_BACK and
the parent ends rolledback, even though the parent future itself resolved;
this works because a committing child removes itself from the parent list while
a rolled-back child is left in place with its rolledback status visible. -/
theorem claim5_rolledback_child_blocks_commit
    (statusIn : Status) (inners : List Inner) (p : Option Status)
    (ch : HookRes) (opts : CbOpts)
    (hrolled : ∃ i ∈ inners, i.status = Status.rolledback)
    (hnorun : ∀ i ∈ inners, i.status ≠ Status.running)
    (hp : ∀ ps, p = some ps → ps = Status.running) :
    (execute statusIn (Except.ok ()) (ExecRes.future (Except.ok ())) inners p ch
        HookRes.ok opts).result = Except.error TxErr.innerRolledBack
    ∧ (execute statusIn (Except.ok ()) (ExecRes.future (Except.ok ())) inners p ch
        HookRes.ok opts).status = Status.rolledback
    ∧ (∀ (l : List Inner) (cid : Nat),
        ∀ i ∈ innerAfterChildSettles l cid Status.committed, i.id ≠ cid)
    ∧ (∀ (l : List Inner) (i : Inner), i ∈ l →
        Inner.mk i.id Status.rolledback ∈ innerAfterChildSettles l i.id Status.rolledback) := by
  have hpre : commitPrecheck inners p = some TxErr.innerRolledBack :=
    (commitPrecheck_rolledBack_iff inners p).mpr ⟨hnorun, hp, hrolled⟩
  have hmain := execute_precheck_fail inners p TxErr.innerRolledBack hpre statusIn ch opts
  refine ⟨hmain.2, hmain.1, ?_, ?_⟩
  · intro l cid i hi
    simp [innerAfterChildSettles, List.mem_filter] at hi
    exact hi.2
  · intro l i hi
    have : (fun j => if j.id = i.id then Inner.mk j.id Status.rolledback else j) i
        ∈ l.map fun j => if j.id = i.id then Inner.mk j.id Status.rolledback else j :=
      List.mem_map_of_mem _ hi
    simpa [innerAfterChildSettles] using this

/-- Witness for C5 at a concrete parent with one rolled-back child. -/
theorem claim5_witness :
    (execute Status.running (Except.ok ()) (ExecRes.future (Except.ok ()))
        [{ id := 3, status := Status.rolledback }] none HookRes.ok HookRes.ok
        { onCommit := none, onRollback := none,
          onCommitCbFails := false, onRollbackCbFails := false }).result
      = Except.error TxErr.innerRolledBack :=
  (claim5_rolledback_child_blocks_commit Status.running
      [{ id := 3, status := Status.rolledback }] none HookRes.ok
      { onCommit := none, onRollback := none,
        onCommitCbFails := false, onRollbackCbFails := false }
      (by decide) (by decide) (by intro ps h; cases h)).1

/-- C4 counterexample: the claim states that status never changes after
reaching a terminal value, in particular that a rollback call after commit does
not move it away from committed; but both writes are unguarded, so the
assignment performed by rollback flips a committed status to rolledback. -/
theorem claim4_counterexample :
    runOps Status.running [TxOp.commitAssign] = Status.committed
    ∧ runOps Status.running [TxOp.commitAssign, TxOp.rollbackCall] = Status.rolledback
    ∧ Status.rolledback ≠ Status.committed := by
  exact ⟨rfl, rfl, by decide⟩

/-- C4 amended: within one execute run (with a rollback hook that returns) the
status does end at exactly one of the terminal values; but terminality is not
enforced against explicit calls: the rollback assignment is unconditional, so a
rollback call after commit moves committed to rolledback, and a rollback that
user code swallows before resolving lets processCommit overwrite rolledback
with committed. -/
theorem claim4_amended_status_transitions :
    (∀ (b : Except TxErr Unit) (er : ExecRes) (inners : List Inner) (p : Option Status)
        (ch : HookRes) (opts : CbOpts),
      (execute Status.running b er inners p ch HookRes.ok opts).status = Status.committed
      ∨ (execute Status.running b er inners p ch HookRes.ok opts).status = Status.rolledback)
    ∧ (∀ s : Status, applyOp s TxOp.rollbackCall = Status.rolledback)
    ∧ (execute Status.rolledback (Except.ok ()) (ExecRes.future (Except.ok ())) [] none
        HookRes.ok HookRes.ok
        { onCommit := none, onRollback := none,
          onCommitCbFails := false, onRollbackCbFails := false }).status
      = Status.committed := by
  refine ⟨?_, fun s => rfl, rfl⟩
  intro b er inners p ch opts
  cases b with
  | error e => exact Or.inr rfl
  | ok u =>
    cases er with
    | nonThenable => exact Or.inr rfl
    | future o =>
      cases o with
      | error e => exact Or.inr rfl
      | ok u2 =>
        cases h : commitPrecheck inners p with
        | some e => exact Or.inr (execute_precheck_fail inners p e h Status.running ch opts).1
        | none =>
          cases ch with
          | ok => exact Or.inl (by simp [execute, h])
          | rejectedFuture e => exact Or.inl (by simp [execute, h])
          | syncThrow e => exact Or.inr (by simp [execute, h, processRollbackModel])

/-- C3 counterexample: the commit hook returns a rejecting future on a root
transaction that has an onCommit option; the claim states the failure is logged
and the deferred onCommit callbacks still fire, but the then of line 153 is
skipped, so the onCommit step never runs and nothing is logged, while the
status still becomes committed. -/
theorem claim3_counterexample :
    (execute Status.running (Except.ok ()) (ExecRes.future (Except.ok ())) [] none
        (HookRes.rejectedFuture (TxErr.hookFail 0)) HookRes.ok
        { onCommit := some 1, onRollback := none,
          onCommitCbFails := false, onRollbackCbFails := false }).onCommitStepRan = false
    ∧ (execute Status.running (Except.ok ()) (ExecRes.future (Except.ok ())) [] none
        (HookRes.rejectedFuture (TxErr.hookFail 0)) HookRes.ok
        { onCommit := some 1, onRollback := none,
          onCommitCbFails := false, onRollbackCbFails := false }).irrecoverableLogged = false
    ∧ (execute Status.running (Except.ok ()) (ExecRes.future (Except.ok ())) [] none
        (HookRes.rejectedFuture (TxErr.hookFail 0)) HookRes.ok
        { onCommit := some 1, onRollback := none,
          onCommitCbFails := false, onRollbackCbFails := false }).status = Status.committed := by
  exact ⟨rfl, rfl, rfl⟩

/-- C3 amended: failures inside the user onCommit and onRollback callbacks are
logged and swallowed.  A commit hook returning a rejecting future is swallowed
with the status transition, the parent-list removal and the registry cleanup
still completing, but the deferred onCommit step is skipped and the library
logs nothing; a commit hook throwing synchronously routes the transaction
through the rollback path instead.  A rollback hook returning a rejecting
future skips the onRollback callback while the status still becomes rolledback;
a rollback hook throwing synchronously skips the status transition and the
onRollback callback and surfaces the hook error; registry cleanup always
completes. -/
theorem claim3_amended_hook_failure_behaviour
    (e e2 : TxErr) (inners : List Inner) (p : Option Status) (opts : CbOpts)
    (statusIn : Status) (hpre : commitPrecheck inners p = none) :
    (execute Status.running (Except.ok ()) (ExecRes.future (Except.ok ())) inners p
        (HookRes.rejectedFuture e) HookRes.ok opts
      = { status := Status.committed, result := Except.ok (), onCommitStepRan := false,
          onRollbackRan := false, removedFromParent := p.isSome, registryDeleted := true,
          irrecoverableLogged := false })
    ∧ ((execute Status.running (Except.ok ()) (ExecRes.future (Except.ok ())) inners p
          (HookRes.syncThrow e) HookRes.ok opts).status = Status.rolledback
       ∧ (execute Status.running (Except.ok ()) (ExecRes.future (Except.ok ())) inners p
          (HookRes.syncThrow e) HookRes.ok opts).result = Except.error e)
    ∧ (processRollbackModel statusIn e (HookRes.syncThrow e2) opts
        = { status := statusIn, result := Except.error e2, onCommitStepRan := false,
            onRollbackRan := false, removedFromParent := false, registryDeleted := true,
            irrecoverableLogged := false })
    ∧ ((processRollbackModel statusIn e (HookRes.rejectedFuture e2) opts).onRollbackRan = false
       ∧ (processRollbackModel statusIn e (HookRes.rejectedFuture e2) opts).status
          = Status.rolledback
       ∧ (processRollbackModel statusIn e (HookRes.rejectedFuture e2) opts).result
          = Except.error e
       ∧ (processRollbackModel statusIn e (HookRes.rejectedFuture e2) opts).registryDeleted
          = true)
    ∧ ((processRollbackModel statusIn e HookRes.ok opts).onRollbackRan
          = opts.onRollback.isSome
       ∧ (processRollbackModel statusIn e HookRes.ok opts).irrecoverableLogged
          = (opts.onRollback.isSome && opts.onRollbackCbFails))
    ∧ ((execute Status.running (Except.ok ()) (ExecRes.future (Except.ok ())) inners p
          HookRes.ok HookRes.ok opts).irrecoverableLogged
        = (p.isNone && opts.onCommit.isSome && opts.onCommitCbFails)) := by
  refine ⟨?_, ⟨?_, ?_⟩, rfl, ⟨rfl, rfl, rfl, rfl⟩, ⟨rfl, rfl⟩, ?_⟩
  · simp [execute, hpre]
  · simp [execute, hpre, processRollbackModel]
  · simp [execute, hpre, processRollbackModel]
  · simp [execute, hpre]

/-- Witness for C3 amended at a concrete root transaction with callbacks. -/
theorem claim3_amended_witness :
    execute Status.running (Except.ok ()) (ExecRes.future (Except.ok ())) [] none
        (HookRes.rejectedFuture (TxErr.hookFail 0)) HookRes.ok
        { onCommit := some 1, onRollback := some 2,
          onCommitCbFails := false, onRollbackCbFails := false }
      = { status := Status.committed, result := Except.ok (), onCommitStepRan := false,
          onRollbackRan := false, removedFromParent := false, registryDeleted := true,
          irrecoverableLogged := false } :=
  (claim3_amended_hook_failure_behaviour (TxErr.hookFail 0) (TxErr.hookFail 1) [] none
      { onCommit := some 1, onRollback := some 2,
        onCommitCbFails := false, onRollbackCbFails := false }
      Status.running rfl).1

/-- C2 counterexample: a two-member chain in which every member commits, the
inner transaction has an onCommit callback (label 1) and the root has none; the
claim states the inner callback fires when the root commits regardless of the
root having an onCommit option of its own, but the early return of line 165
discards the whole stack and nothing fires. -/
theorem claim2_counterexample :
    firedAtRoot [none, some 1] = [] ∧ (1 : Nat) ∉ firedAtRoot [none, some 1] := by
  exact ⟨rfl, by decide⟩

/-- C2 amended: in a fully committing chain, a committing transaction appends
its accumulated stack followed by its own callback to the parent stack only
when it has an onCommit option of its own, and otherwise propagates nothing,
discarding the deferred callbacks of its descendants; consequently the
callbacks fired at root commit are exactly the callbacks of the maximal prefix
of the chain (root first) whose members all carry an onCommit option, fired
deepest first. -/
theorem claim2_amended_commit_stack_bubbling
    (chain rest : List (Option Nat)) (cb : Nat) :
    commitContribution (some cb :: rest) = commitContribution rest ++ [cb]
    ∧ commitContribution (none :: rest) = []
    ∧ firedAtRoot chain = ((chain.takeWhile Option.isSome).filterMap id).reverse := by
  refine ⟨rfl, rfl, ?_⟩
  induction chain with
  | nil => rfl
  | cons head t ih =>
    cases head with
    | none => simp [firedAtRoot, commitContribution, List.takeWhile]
    | some cb2 =>
      simp only [firedAtRoot, commitContribution, List.takeWhile, Option.isSome,
        List.filterMap, List.reverse_cons] at ih ⊢
      simp [ih]

end CoreTransaction
